import Mathlib

/- Shallow embedding of the billing / payment-settlement core of the Hospital
   backend (src/backend/apps/billing: models.py, serializers.py, views.py,
   tasks.py, mpesa.py).

   Conventions of the embedding:
   - All fixed-point currency amounts (Django DecimalField with 2 decimal
     places) are held in integer cents (Int).  500.00 KES is 50000.
   - A Django model row is a Lean structure.  A full `save()` persists every
     column; `save(update_fields=[...])` persists only the listed columns.
     Invoice.recalculate uses such a masked save (models.py line 221), which
     the embedding reproduces faithfully: it takes the in-memory object `mem`
     and the current DB row `db` and writes back only subtotal, total_amount,
     balance_due and status.
   - Network calls (OAuth, STK push, STK query) are modelled by passing the
     gateway's outcome as an explicit argument: either a parsed result
     structure or a raised MpesaError.
   - Timestamps, UUIDs, invoice-number generation, logging and the audit-log
     signals are elided: no claim depends on them.  TransactionDate values are
     kept as their raw digit strings (the strptime conversion is elided).
   - The database relevant to the payment views is one Invoice row plus one
     Payment row (the payment looked up by checkout id); lookup by checkout
     id succeeds exactly when the id matches that row's checkout_request_id. -/

namespace Hospital

/-- InvoiceStatus choices (models.py 16-25). -/
inductive InvoiceStatus where
  | DRAFT | PENDING | PARTIALLY_PAID | PAID | OVERDUE | CANCELLED | REFUNDED
  deriving DecidableEq

/-- PaymentStatus choices (models.py 28-37). -/
inductive PaymentStatus where
  | PENDING | PROCESSING | COMPLETED | FAILED | CANCELLED | REFUNDED | TIMEOUT
  deriving DecidableEq

/-- InvoiceItem row (models.py 224-269): quantity, unit_price and the stored
    total_price column. -/
structure InvoiceItem where
  quantity : Nat
  unit_price : Int
  total_price : Int
  deriving DecidableEq

/-- InvoiceItem.save (models.py 266-269): total_price = quantity * unit_price
    is recomputed before every save. -/
def InvoiceItem.save (it : InvoiceItem) : InvoiceItem :=
  { it with total_price := (it.quantity : Int) * it.unit_price }

/-- Invoice row (models.py 99-184), money columns in cents.  The owned line
    items are carried with the invoice: `_calculate_totals` reads them via
    `self.items.all()`. -/
structure Invoice where
  status : InvoiceStatus
  subtotal : Int
  tax_amount : Int
  discount_amount : Int
  total_amount : Int
  amount_paid : Int
  balance_due : Int
  items : List InvoiceItem
  deriving DecidableEq

/-- Invoice._calculate_totals (models.py 206-216): recompute subtotal from the
    line items, then total_amount, then balance_due, then derive status:
    PAID when balance_due is non-positive, else PARTIALLY_PAID when
    amount_paid is positive, else the status is left as it was. -/
def Invoice.calculate_totals (inv : Invoice) : Invoice :=
  let subtotal := (inv.items.map (fun it => it.total_price)).sum
  let total_amount := subtotal + inv.tax_amount - inv.discount_amount
  let balance_due := total_amount - inv.amount_paid
  let status :=
    if balance_due ≤ 0 then InvoiceStatus.PAID
    else if inv.amount_paid > 0 then InvoiceStatus.PARTIALLY_PAID
    else inv.status
  { inv with subtotal := subtotal, total_amount := total_amount,
             balance_due := balance_due, status := status }

/-- Invoice.save with no update_fields mask (models.py 189-194): runs
    `_calculate_totals` and persists every column.  Invoice-number
    generation (models.py 196-204) is elided. -/
def Invoice.save (inv : Invoice) : Invoice := inv.calculate_totals

/-- Invoice.recalculate (models.py 218-221) applied to an in-memory object
    `mem` whose persisted row is `db`: `_calculate_totals` runs on `mem`, then
    `save(update_fields=["subtotal", "total_amount", "balance_due", "status",
    "updated_at"])` writes back ONLY those columns.  In particular a pending
    in-memory change to amount_paid is NOT persisted.  The result is the new
    DB row. -/
def Invoice.recalculate (mem db : Invoice) : Invoice :=
  let c := mem.calculate_totals
  { db with subtotal := c.subtotal, total_amount := c.total_amount,
            balance_due := c.balance_due, status := c.status }

/-- The Body.stkCallback envelope of an M-Pesa callback.  Absent JSON keys are
    `none`; CallbackMetadata.Item is a list of Name/Value pairs (values kept
    as strings). -/
structure StkCallbackBody where
  merchant_request_id : Option String
  checkout_request_id : Option String
  result_code_field : Option Int
  result_desc_field : Option String
  callback_metadata : Option (List (String × String))
  deriving DecidableEq

/-- A raw inbound callback request body.  `body = none` models a payload with
    no "Body" dict, which MpesaCallbackSerializer (serializers.py 251-254)
    rejects; a present "Body" whose "stkCallback" key is missing is
    `some` of the all-none envelope (dict .get defaults). -/
structure CallbackPayload where
  body : Option StkCallbackBody
  deriving DecidableEq

/-- Payment row (models.py 272-348), amount in cents. -/
structure Payment where
  amount : Int
  status : PaymentStatus
  phone_number : String
  merchant_request_id : String
  checkout_request_id : String
  mpesa_receipt_number : String
  transaction_date : Option String
  result_code : String
  result_description : String
  callback_data : Option CallbackPayload
  deriving DecidableEq

/-- The dict produced by MpesaService.parse_callback (mpesa.py 249-296). -/
structure ParsedCallback where
  merchant_request_id : Option String
  checkout_request_id : Option String
  result_code : String
  result_desc : String
  success : Bool
  amount : Option String
  receipt_number : Option String
  transaction_date : Option String
  phone_number : Option String
  deriving DecidableEq

/-- MpesaService.parse_callback (mpesa.py 249-296): read the stkCallback
    envelope with dict .get defaults, success iff ResultCode equals the
    integer 0, result_code is str(ResultCode) ("" when absent); on success
    fold the CallbackMetadata items into amount / receipt_number /
    transaction_date / phone_number (later items overwrite earlier ones). -/
def parse_callback (d : CallbackPayload) : ParsedCallback :=
  let body := d.body.getD ⟨none, none, none, none, none⟩
  let base : ParsedCallback :=
    { merchant_request_id := body.merchant_request_id
      checkout_request_id := body.checkout_request_id
      result_code := match body.result_code_field with
        | some c => toString c
        | none => ""
      result_desc := body.result_desc_field.getD ""
      success := body.result_code_field == some 0
      amount := none
      receipt_number := none
      transaction_date := none
      phone_number := none }
  if base.success then
    match body.callback_metadata with
    | none => base
    | some items =>
      items.foldl (fun acc it =>
        if it.1 = "Amount" then { acc with amount := some it.2 }
        else if it.1 = "MpesaReceiptNumber" then { acc with receipt_number := some it.2 }
        else if it.1 = "TransactionDate" then { acc with transaction_date := some it.2 }
        else if it.1 = "PhoneNumber" then { acc with phone_number := some it.2 }
        else acc) base
  else base

/-- Payment.mark_completed (models.py 353-364): set status COMPLETED, update
    receipt number when truthy and transaction date when present, full-save
    the payment; then increment the in-memory invoice's amount_paid by the
    payment amount and call invoice.recalculate().  Returns the persisted
    payment row and the persisted invoice row. -/
def Payment.mark_completed (p : Payment) (receipt_number : Option String)
    (transaction_date : Option String) (invoice_db : Invoice) : Payment × Invoice :=
  let p1 := { p with status := PaymentStatus.COMPLETED }
  let p2 := match receipt_number with
    | some r => if r = "" then p1 else { p1 with mpesa_receipt_number := r }
    | none => p1
  let p3 := match transaction_date with
    | some d => { p2 with transaction_date := some d }
    | none => p2
  let mem := { invoice_db with amount_paid := invoice_db.amount_paid + p3.amount }
  (p3, Invoice.recalculate mem invoice_db)

/-- Payment.mark_failed (models.py 366-371). -/
def Payment.mark_failed (p : Payment) (result_code result_description : String) : Payment :=
  { p with status := PaymentStatus.FAILED, result_code := result_code,
           result_description := result_description }

/-- The persisted rows the M-Pesa views operate on: one invoice and the
    payment correlated with it. -/
structure BillingDb where
  invoice : Invoice
  payment : Payment
  deriving DecidableEq

/-- The JSON body the callback view answers to the gateway. -/
structure CallbackResponse where
  ResultCode : Int
  ResultDesc : String
  deriving DecidableEq

/-- MpesaCallbackView.post (views.py 233-275).  Serializer-invalid payloads
    (no Body dict) get ResultCode 1 "Invalid data"; a missing or empty
    CheckoutRequestID gets ResultCode 1 "Missing CheckoutRequestID"; an
    unknown checkout id is acknowledged with ResultCode 0; otherwise the raw
    payload and result fields are stored on the payment and mark_completed or
    mark_failed runs (no terminal-status guard), ending in ResultCode 0. -/
def mpesa_callback_post (db : BillingDb) (payload : CallbackPayload) :
    BillingDb × CallbackResponse :=
  match payload.body with
  | none => (db, { ResultCode := 1, ResultDesc := "Invalid data" })
  | some _ =>
    let parsed := parse_callback payload
    match parsed.checkout_request_id with
    | none => (db, { ResultCode := 1, ResultDesc := "Missing CheckoutRequestID" })
    | some cid =>
      if cid = "" then (db, { ResultCode := 1, ResultDesc := "Missing CheckoutRequestID" })
      else if cid ≠ db.payment.checkout_request_id then
        (db, { ResultCode := 0, ResultDesc := "Accepted" })
      else
        let p := { db.payment with
                   callback_data := some payload,
                   result_code := parsed.result_code,
                   result_description := parsed.result_desc }
        if parsed.success then
          let pc := p.mark_completed parsed.receipt_number parsed.transaction_date db.invoice
          ({ invoice := pc.2, payment := pc.1 }, { ResultCode := 0, ResultDesc := "Accepted" })
        else
          ({ db with payment := p.mark_failed parsed.result_code parsed.result_desc },
           { ResultCode := 0, ResultDesc := "Accepted" })

/-- Outcome of a gateway HTTP interaction: a parsed result, or a raised
    MpesaError. -/
inductive GatewayCall (α : Type) where
  | ok (result : α)
  | mpesaError (message : String)
  deriving DecidableEq

/-- Parsed result of MpesaService.query_stk_status (mpesa.py 214-220). -/
structure StkQueryResult where
  success : Bool
  result_code : String
  result_desc : String
  deriving DecidableEq

/-- HTTP outcome of the query view (payload contents elided beyond kind). -/
inductive QueryHttpResult where
  | payment_data
  | bad_request
  | server_error (message : String)
  deriving DecidableEq

/-- MpesaQueryView.get (views.py 287-329) after the payment row was found:
    400 when there is no checkout id; cached response when the payment is
    already COMPLETED or FAILED (gateway not called); otherwise the gateway
    query runs: success result completes the payment (mark_completed) when
    its status is not COMPLETED; result codes 1032 / 1037 set CANCELLED /
    TIMEOUT; other codes leave the payment unchanged; a raised MpesaError is
    a 500 with no state change. -/
def mpesa_query_get (db : BillingDb) (gw : GatewayCall StkQueryResult) :
    BillingDb × QueryHttpResult :=
  if db.payment.checkout_request_id = "" then (db, QueryHttpResult.bad_request)
  else if db.payment.status = PaymentStatus.COMPLETED ∨
          db.payment.status = PaymentStatus.FAILED then
    (db, QueryHttpResult.payment_data)
  else
    match gw with
    | GatewayCall.mpesaError m => (db, QueryHttpResult.server_error m)
    | GatewayCall.ok r =>
      if r.success then
        if db.payment.status ≠ PaymentStatus.COMPLETED then
          let pc := db.payment.mark_completed none none db.invoice
          ({ invoice := pc.2, payment := pc.1 }, QueryHttpResult.payment_data)
        else (db, QueryHttpResult.payment_data)
      else if r.result_code = "1032" ∨ r.result_code = "1037" then
        ({ db with payment := { db.payment with
            status := if r.result_code = "1032" then PaymentStatus.CANCELLED
                      else PaymentStatus.TIMEOUT,
            result_code := r.result_code,
            result_description := r.result_desc } }, QueryHttpResult.payment_data)
      else (db, QueryHttpResult.payment_data)

/-- process_mpesa_timeout (tasks.py 75-98): transition to TIMEOUT only when
    the payment is still PROCESSING; otherwise no change. -/
def process_mpesa_timeout (db : BillingDb) : BillingDb :=
  if db.payment.status = PaymentStatus.PROCESSING then
    { db with payment := { db.payment with
        status := PaymentStatus.TIMEOUT,
        result_description := "Payment request timed out" } }
  else db

/-- MpesaPaymentInitiateSerializer.validate_invoice_id (serializers.py
    219-227): the invoice must not be PAID, CANCELLED or REFUNDED. -/
def validate_invoice (inv : Invoice) : Except String Unit :=
  if inv.status = InvoiceStatus.PAID ∨ inv.status = InvoiceStatus.CANCELLED ∨
     inv.status = InvoiceStatus.REFUNDED then Except.error "Invoice is not payable"
  else Except.ok ()

/-- MpesaPaymentInitiateSerializer.validate_phone_number (serializers.py
    229-235): the digit characters of the value must number between 9 and 15;
    the original value is returned. -/
def validate_phone_number (value : String) : Except String String :=
  let phone := value.toList.filter Char.isDigit
  if phone.length < 9 ∨ phone.length > 15 then Except.error "Invalid phone number"
  else Except.ok value

/-- MpesaPaymentInitiateSerializer field validation plus validate
    (serializers.py 212-248): invoice payability, phone format, then the
    amount logic — an omitted amount defaults to the invoice balance_due with
    no further check; a supplied amount must not exceed balance_due and must
    be positive.  Returns the validated amount in cents. -/
def serializer_validate (inv : Invoice) (phone : String) (amount : Option Int) :
    Except String Int :=
  match validate_invoice inv with
  | Except.error e => Except.error e
  | Except.ok _ =>
    match validate_phone_number phone with
    | Except.error e => Except.error e
    | Except.ok _ =>
      match amount with
      | none => Except.ok inv.balance_due
      | some a =>
        if a > inv.balance_due then Except.error "Amount exceeds invoice balance"
        else if a ≤ 0 then Except.error "Amount must be positive"
        else Except.ok a

/-- python int() applied to a 2-decimal currency amount held in cents:
    truncation toward zero to whole currency units (views.py line 160,
    `amount = int(serializer.validated_data["amount"])`). -/
def int_trunc_kes (cents : Int) : Int := cents.tdiv 100

/-- MpesaService._format_phone_number (mpesa.py 226-247): keep digits only,
    replace a leading 0 with 254, a "+254" branch that is unreachable after
    digit filtering, else ensure the 254 country prefix. -/
def format_phone_number (phone : String) : String :=
  let digits := String.mk (phone.toList.filter Char.isDigit)
  if digits.startsWith "0" then "254" ++ digits.drop 1
  else if digits.startsWith "+254" then digits.drop 1
  else if ¬ digits.startsWith "254" then "254" ++ digits
  else digits

/-- The outbound STK-push payload fields the core controls (mpesa.py
    131-143): Amount = int(amount), phone formatted, AccountReference cut to
    12 characters, TransactionDesc cut to 13.  Credentials and URLs elided. -/
structure StkPushRequest where
  Amount : Int
  PartyA : String
  PhoneNumber : String
  AccountReference : String
  TransactionDesc : String
  deriving DecidableEq

def stk_push_request (phone_number : String) (amount : Int)
    (account_reference transaction_desc : String) : StkPushRequest :=
  let phone := format_phone_number phone_number
  { Amount := amount, PartyA := phone, PhoneNumber := phone,
    AccountReference := account_reference.take 12,
    TransactionDesc := transaction_desc.take 13 }

/-- Parsed result of MpesaService.initiate_stk_push (mpesa.py 164-171). -/
structure StkPushResult where
  success : Bool
  merchant_request_id : String
  checkout_request_id : String
  response_description : String
  customer_message : String
  deriving DecidableEq

/-- MpesaError (mpesa.py 299-302) with the three message shapes raised in
    mpesa.py (lines 92, 175, 224). -/
inductive MpesaError where
  | auth_failed (cause : String)
  | stk_push_failed (cause : String)
  | stk_query_failed (cause : String)
  deriving DecidableEq

def MpesaError.message : MpesaError → String
  | MpesaError.auth_failed c => "Failed to authenticate with M-Pesa: " ++ c
  | MpesaError.stk_push_failed c => "Failed to initiate STK Push: " ++ c
  | MpesaError.stk_query_failed c => "Failed to query STK status: " ++ c

/-- Result of the STK-push view: the created (persisted) payment row, the
    outbound request payload initiate_stk_push builds from the view's
    arguments (in the auth-failure branch nothing is actually sent; the field
    then holds the payload that would have been built), and the HTTP status
    code of the response. -/
structure StkPushViewOutcome where
  payment : Payment
  request : StkPushRequest
  http_status : Nat
  deriving DecidableEq

/-- MpesaSTKPushView.post (views.py 153-221): serializer validation with
    raise_exception (a ValidationError is the Except.error case, before any
    payment row exists); then a PENDING payment row is created with
    amount = int(validated amount) whole units; then the gateway call: on
    success the payment becomes PROCESSING with the request ids (HTTP 200),
    on gateway reject it becomes FAILED with the response description
    (HTTP 400), and on a raised MpesaError it becomes FAILED with the error
    message (HTTP 500) — the exception does not escape. -/
def mpesa_stk_push_post (inv : Invoice) (amount_in : Option Int)
    (phone_number invoice_number : String) (gw : GatewayCall StkPushResult) :
    Except String StkPushViewOutcome :=
  match serializer_validate inv phone_number amount_in with
  | Except.error e => Except.error e
  | Except.ok validated_amount =>
    let amount := int_trunc_kes validated_amount
    let payment0 : Payment :=
      { amount := amount * 100, status := PaymentStatus.PENDING,
        phone_number := phone_number, merchant_request_id := "",
        checkout_request_id := "", mpesa_receipt_number := "",
        transaction_date := none, result_code := "", result_description := "",
        callback_data := none }
    let request := stk_push_request phone_number amount invoice_number "Hospital Bill"
    match gw with
    | GatewayCall.ok r =>
      if r.success then
        Except.ok { payment := { payment0 with
                      merchant_request_id := r.merchant_request_id,
                      checkout_request_id := r.checkout_request_id,
                      status := PaymentStatus.PROCESSING },
                    request := request, http_status := 200 }
      else
        Except.ok { payment := { payment0 with
                      status := PaymentStatus.FAILED,
                      result_description := r.response_description },
                    request := request, http_status := 400 }
    | GatewayCall.mpesaError e =>
      Except.ok { payment := { payment0 with
                    status := PaymentStatus.FAILED,
                    result_description := e },
                  request := request, http_status := 500 }

/-- InvoiceCreateSerializer.create (serializers.py 137-166):
    Invoice.objects.create runs a full save with status PENDING and no line
    items yet; then each item row is inserted (InvoiceItem.save computes its
    total_price; the post_save signal's extra recalculate calls do not change
    the final row); then invoice.recalculate() runs on the same in-memory
    object.  Items are given as (quantity, resolved unit price) pairs; the
    service lookup and unit-price defaulting are elided. -/
def invoice_create (tax_amount discount_amount : Int)
    (items : List (Nat × Int)) : Invoice :=
  let inv0 : Invoice :=
    { status := InvoiceStatus.PENDING, subtotal := 0, tax_amount := tax_amount,
      discount_amount := discount_amount, total_amount := 0, amount_paid := 0,
      balance_due := 0, items := [] }
  let inv1 := inv0.save
  let its := items.map (fun qp =>
    InvoiceItem.save { quantity := qp.1, unit_price := qp.2, total_price := 0 })
  let inv2 := { inv1 with items := its }
  Invoice.recalculate inv2 inv2

/-- Boolean success test for an Except result. -/
def exceptOk {ε α : Type} : Except ε α → Bool
  | Except.ok _ => true
  | Except.error _ => false

/- Concrete fixtures used by the scenario evaluations below.  Scenario A's
   invoice: one line item of quantity 2 at unit price 500.00, no tax, no
   discount, nothing paid.  The record below is the at-rest form such an
   invoice would have with status PENDING; `invoice_create` computes what the
   code actually persists for it. -/

def invA : Invoice :=
  { status := InvoiceStatus.PENDING, subtotal := 100000, tax_amount := 0,
    discount_amount := 0, total_amount := 100000, amount_paid := 0,
    balance_due := 100000,
    items := [{ quantity := 2, unit_price := 50000, total_price := 100000 }] }

/-- A payment of 1000.00 in PROCESSING, correlated by checkout id. -/
def payA : Payment :=
  { amount := 100000, status := PaymentStatus.PROCESSING,
    phone_number := "254712345678", merchant_request_id := "29115-34620561-1",
    checkout_request_id := "ws_CO_191220191020363925",
    mpesa_receipt_number := "", transaction_date := none, result_code := "",
    result_description := "", callback_data := none }

def dbA : BillingDb := { invoice := invA, payment := payA }

/-- The stkCallback envelope of a success callback for payA's checkout id,
    confirmed amount 1000. -/
def successBody : StkCallbackBody :=
  { merchant_request_id := some "29115-34620561-1",
    checkout_request_id := some "ws_CO_191220191020363925",
    result_code_field := some 0,
    result_desc_field := some "The service request is processed successfully.",
    callback_metadata := some [("Amount", "1000"),
      ("MpesaReceiptNumber", "NLJ7RT61SV"),
      ("TransactionDate", "20240115123456"),
      ("PhoneNumber", "254712345678")] }

/-- A success callback payload for payA's checkout id. -/
def successPayload : CallbackPayload := { body := some successBody }

/-- The stkCallback envelope of a user-cancelled (failure) callback for the
    same checkout id. -/
def cancelBody : StkCallbackBody :=
  { merchant_request_id := some "29115-34620561-1",
    checkout_request_id := some "ws_CO_191220191020363925",
    result_code_field := some 1032,
    result_desc_field := some "Request cancelled by user",
    callback_metadata := none }

/-- A user-cancelled (failure) callback payload for the same checkout id. -/
def cancelPayload : CallbackPayload := { body := some cancelBody }

/-- The rows after payA settled successfully: payment COMPLETED, invoice PAID. -/
def dbCompleted : BillingDb :=
  { invoice := { invA with balance_due := 0, status := InvoiceStatus.PAID },
    payment := { payA with
                 status := PaymentStatus.COMPLETED,
                 mpesa_receipt_number := "NLJ7RT61SV" } }

/-- A gateway query result reporting success. -/
def querySuccessResult : StkQueryResult :=
  { success := true, result_code := "0",
    result_desc := "The service request is processed successfully." }

/-- A gateway STK-push accept result. -/
def gwAccept : GatewayCall StkPushResult :=
  GatewayCall.ok
    { success := true, merchant_request_id := "29115-34620561-1",
      checkout_request_id := "ws_CO_191220191020363925",
      response_description := "Success. Request accepted for processing",
      customer_message := "Success. Request accepted for processing" }

/-- An at-rest invoice whose balance has a nonzero fractional part: 1000.50
    due, nothing paid, status PENDING. -/
def invFrac : Invoice :=
  { status := InvoiceStatus.PENDING, subtotal := 100050, tax_amount := 0,
    discount_amount := 0, total_amount := 100050, amount_paid := 0,
    balance_due := 100050,
    items := [{ quantity := 1, unit_price := 100050, total_price := 100050 }] }

/-- An invoice with no items and nothing due. -/
def invZero : Invoice :=
  { status := InvoiceStatus.PENDING, subtotal := 0, tax_amount := 0,
    discount_amount := 0, total_amount := 0, amount_paid := 0,
    balance_due := 0, items := [] }

/-- invA with a partial payment of 400.00 recorded. -/
def invPartialPre : Invoice := { invA with amount_paid := 40000 }

/-- Truthiness of the parsed CheckoutRequestID: present and non-empty. -/
def callback_has_checkout_id (payload : CallbackPayload) : Bool :=
  match (parse_callback payload).checkout_request_id with
  | some c => if c = "" then false else true
  | none => false

end Hospital

namespace Hospital

/- Helper lemmas about the status derivation in _calculate_totals. -/

theorem calculate_totals_amount_paid (inv : Invoice) :
    inv.calculate_totals.amount_paid = inv.amount_paid := rfl

theorem calculate_totals_balance_eq (inv : Invoice) :
    inv.calculate_totals.balance_due =
      inv.calculate_totals.total_amount - inv.amount_paid := rfl

theorem calculate_totals_total_eq (inv : Invoice) :
    inv.calculate_totals.total_amount =
      inv.calculate_totals.subtotal + inv.tax_amount - inv.discount_amount := rfl

theorem calculate_totals_paid_of_nonpos (inv : Invoice)
    (h : inv.calculate_totals.balance_due ≤ 0) :
    inv.calculate_totals.status = InvoiceStatus.PAID := by
  unfold Invoice.calculate_totals at h ⊢
  dsimp only at h ⊢
  rw [if_pos h]

theorem calculate_totals_partial_of (inv : Invoice)
    (h : 0 < inv.calculate_totals.balance_due) (hp : 0 < inv.amount_paid) :
    inv.calculate_totals.status = InvoiceStatus.PARTIALLY_PAID := by
  unfold Invoice.calculate_totals at h ⊢
  dsimp only at h ⊢
  rw [if_neg (by omega), if_pos (by omega)]

theorem calculate_totals_keep_of (inv : Invoice)
    (h : 0 < inv.calculate_totals.balance_due) (hp : inv.amount_paid ≤ 0) :
    inv.calculate_totals.status = inv.status := by
  unfold Invoice.calculate_totals at h ⊢
  dsimp only at h ⊢
  rw [if_neg (by omega), if_neg (by omega)]

/-- A saved invoice whose persisted status passes the payability check has a
    positive balance: had its balance been nonpositive, the save would have
    stamped it PAID. -/
theorem save_payable_balance_pos (pre : Invoice)
    (h : validate_invoice pre.save = Except.ok ()) : 0 < pre.save.balance_due := by
  by_contra hb
  push_neg at hb
  have hs : pre.save.status = InvoiceStatus.PAID :=
    calculate_totals_paid_of_nonpos pre hb
  simp [validate_invoice, hs] at h

end Hospital

namespace Hospital

/-- C1: for a PROCESSING payment of 1000.00 against an invoice with 1000.00
    due and nothing paid, delivering the identical success callback twice is
    indeed a no-op the second time on the persisted rows, and the payment is
    COMPLETED after the first call - but the invoice's amount_paid is
    incremented zero times across the calls, not once: it stays 0 (and
    balance_due is written to 0), because mark_completed's in-memory
    increment is dropped by recalculate's masked save, which omits
    amount_paid from update_fields. -/
theorem c1_duplicate_callback_credits_invoice_zero_times :
    (mpesa_callback_post (mpesa_callback_post dbA successPayload).1 successPayload).1 =
      (mpesa_callback_post dbA successPayload).1 ∧
    (mpesa_callback_post dbA successPayload).1.payment.status = PaymentStatus.COMPLETED ∧
    dbA.invoice.amount_paid = 0 ∧
    dbA.payment.amount = 100000 ∧
    (mpesa_callback_post dbA successPayload).1.invoice.amount_paid = 0 ∧
    (mpesa_callback_post dbA successPayload).1.invoice.balance_due = 0 := by
  decide

/-- C2: terminal payment statuses are not absorbing: the callback handler has
    no terminal-status guard, so a COMPLETED payment that receives a failure
    callback (ResultCode 1032) is transitioned to FAILED. -/
theorem c2_completed_payment_flips_to_failed_on_failure_callback :
    dbCompleted.payment.status = PaymentStatus.COMPLETED ∧
    (mpesa_callback_post dbCompleted cancelPayload).1.payment.status =
      PaymentStatus.FAILED := by
  decide

/-- C3 counterexample: a malformed payload with no Body dict is answered with
    ResultCode 1 and ResultDesc "Invalid data", not ResultCode 0. -/
theorem c3_counterexample_invalid_payload_resultcode_one :
    (mpesa_callback_post dbA { body := none }).2.ResultCode = 1 ∧
    (mpesa_callback_post dbA { body := none }).2.ResultDesc = "Invalid data" ∧
    ¬ (mpesa_callback_post dbA { body := none }).2.ResultCode = 0 := by
  decide

/-- C4: creating an invoice with one line item of quantity 2 at unit price
    500.00, zero tax and discount and no payments persists subtotal 1000.00,
    total_amount 1000.00 and balance_due 1000.00 as claimed - but status
    PAID, not PENDING: the initial save of the still-empty invoice derives
    PAID from its zero balance, and the recalculation after the items are
    inserted never demotes a status. -/
theorem c4_scenarioA_totals_and_status_eval :
    (invoice_create 0 0 [(2, 50000)]).subtotal = 100000 ∧
    (invoice_create 0 0 [(2, 50000)]).total_amount = 100000 ∧
    (invoice_create 0 0 [(2, 50000)]).balance_due = 100000 ∧
    (invoice_create 0 0 [(2, 50000)]).amount_paid = 0 ∧
    (invoice_create 0 0 [(2, 50000)]).status = InvoiceStatus.PAID ∧
    ¬ (invoice_create 0 0 [(2, 50000)]).status = InvoiceStatus.PENDING := by
  decide

/-- C5 counterexample: the invoice persisted by the Scenario-A creation flow
    has just been recalculated, and recalculating it again is a fixed point,
    yet its status is PAID while its balance_due is a positive 1000.00 -
    refuting the claimed equivalence of status PAID with nonpositive
    balance_due. -/
theorem c5_counterexample_paid_with_positive_balance :
    Invoice.recalculate (invoice_create 0 0 [(2, 50000)])
        (invoice_create 0 0 [(2, 50000)]) =
      invoice_create 0 0 [(2, 50000)] ∧
    (invoice_create 0 0 [(2, 50000)]).status = InvoiceStatus.PAID ∧
    0 < (invoice_create 0 0 [(2, 50000)]).balance_due := by
  decide

/-- C5 amended: recalculation sets status to PAID whenever the recomputed
    balance_due is nonpositive, to PARTIALLY_PAID whenever the balance is
    positive and amount_paid is positive, and otherwise leaves the prior
    status in place; the only-if directions of the claimed equivalences fail
    because a pre-existing PAID status persists through recalculation even
    with a positive balance. -/
theorem c5_amended_status_derivation (inv : Invoice) :
    (inv.calculate_totals.balance_due ≤ 0 →
      inv.calculate_totals.status = InvoiceStatus.PAID) ∧
    (0 < inv.calculate_totals.balance_due → 0 < inv.amount_paid →
      inv.calculate_totals.status = InvoiceStatus.PARTIALLY_PAID) ∧
    (0 < inv.calculate_totals.balance_due → inv.amount_paid ≤ 0 →
      inv.calculate_totals.status = inv.status) := by
  refine ⟨fun h => calculate_totals_paid_of_nonpos inv h,
    fun h hp => calculate_totals_partial_of inv h hp,
    fun h hp => calculate_totals_keep_of inv h hp⟩

theorem c5_amended_status_derivation_witness :
    invZero.calculate_totals.status = InvoiceStatus.PAID ∧
    invPartialPre.calculate_totals.status = InvoiceStatus.PARTIALLY_PAID ∧
    invA.calculate_totals.status = invA.status :=
  ⟨(c5_amended_status_derivation invZero).1 (by decide),
   (c5_amended_status_derivation invPartialPre).2.1 (by decide) (by decide),
   (c5_amended_status_derivation invA).2.2 (by decide) (by decide)⟩

/-- C6: after the PROCESSING payment of 1000.00 settles via a success
    callback against the invoice with total 1000.00 and nothing paid, the
    persisted invoice row satisfies total_amount = subtotal + tax_amount -
    discount_amount, but its balance_due is 0 while total_amount -
    amount_paid is 1000.00: the two differ, because the amount_paid
    increment made in mark_completed is never persisted (recalculate's
    update_fields omits amount_paid). -/
theorem c6_completed_payment_breaks_balance_invariant_eval :
    ((mpesa_callback_post dbA successPayload).1.invoice.total_amount =
      (mpesa_callback_post dbA successPayload).1.invoice.subtotal +
        (mpesa_callback_post dbA successPayload).1.invoice.tax_amount -
        (mpesa_callback_post dbA successPayload).1.invoice.discount_amount) ∧
    (mpesa_callback_post dbA successPayload).1.invoice.balance_due = 0 ∧
    ((mpesa_callback_post dbA successPayload).1.invoice.total_amount -
      (mpesa_callback_post dbA successPayload).1.invoice.amount_paid = 100000) ∧
    ¬ ((mpesa_callback_post dbA successPayload).1.invoice.balance_due =
      (mpesa_callback_post dbA successPayload).1.invoice.total_amount -
        (mpesa_callback_post dbA successPayload).1.invoice.amount_paid) := by
  decide

/-- C9: in the interleaving where the status query applies the gateway
    success result first and the late success callback arrives afterwards,
    mark_completed executes in both operations - the query completed the
    payment with no receipt, and the callback, lacking any terminal-status
    guard, ran the completion path again and stamped the receipt - and the
    persisted invoice is credited zero times rather than exactly once:
    amount_paid remains 0 (its increment is dropped by recalculate's masked
    save) while balance_due is written to 0. -/
theorem c9_query_then_callback_double_completion_eval :
    (mpesa_query_get dbA (GatewayCall.ok querySuccessResult)).1.payment.status =
      PaymentStatus.COMPLETED ∧
    (mpesa_query_get dbA (GatewayCall.ok querySuccessResult)).1.payment.mpesa_receipt_number
      = "" ∧
    (mpesa_callback_post (mpesa_query_get dbA (GatewayCall.ok querySuccessResult)).1
        successPayload).1.payment.status = PaymentStatus.COMPLETED ∧
    (mpesa_callback_post (mpesa_query_get dbA (GatewayCall.ok querySuccessResult)).1
        successPayload).1.payment.mpesa_receipt_number = "NLJ7RT61SV" ∧
    (mpesa_callback_post (mpesa_query_get dbA (GatewayCall.ok querySuccessResult)).1
        successPayload).1.invoice.amount_paid = 0 ∧
    (mpesa_callback_post (mpesa_query_get dbA (GatewayCall.ok querySuccessResult)).1
        successPayload).1.invoice.balance_due = 0 := by
  decide

end Hospital

namespace Hospital

theorem string_append_ne_empty (s t : String) (hs : s.length ≠ 0) : s ++ t ≠ "" := by
  intro h
  have hl := congrArg String.length h
  rw [String.length_append] at hl
  have h0 : ("" : String).length = 0 := rfl
  omega

theorem mpesa_error_message_ne_empty (e : MpesaError) : e.message ≠ "" := by
  cases e with
  | auth_failed c => exact string_append_ne_empty _ _ (by decide)
  | stk_push_failed c => exact string_append_ne_empty _ _ (by decide)
  | stk_query_failed c => exact string_append_ne_empty _ _ (by decide)

/-- A validated amount never exceeds the invoice balance: an omitted amount
    defaults to balance_due, a supplied amount above it is rejected. -/
theorem serializer_validate_le (inv : Invoice) (phone : String)
    (amount : Option Int) (a : Int)
    (h : serializer_validate inv phone amount = Except.ok a) :
    a ≤ inv.balance_due := by
  cases hv : validate_invoice inv with
  | error e => simp [serializer_validate, hv] at h
  | ok u =>
    cases hp : validate_phone_number phone with
    | error e => simp [serializer_validate, hv, hp] at h
    | ok s =>
      cases amount with
      | none =>
        simp [serializer_validate, hv, hp] at h
        omega
      | some x =>
        by_cases hgt : x > inv.balance_due
        · simp [serializer_validate, hv, hp, hgt] at h
        · by_cases hle : x ≤ 0
          · simp [serializer_validate, hv, hp, hgt, hle] at h
          · simp [serializer_validate, hv, hp, hgt, hle] at h
            omega

end Hospital

namespace Hospital

/-- C3 amended: the callback handler answers ResultCode 0 exactly when the
    payload carries a Body dict and a present, non-empty CheckoutRequestID
    (whether or not a matching payment exists and whatever the result code);
    for a malformed payload (no Body) or one whose checkout id is missing or
    empty it answers ResultCode 1 - so a non-zero ResultCode is returned to
    the gateway on those inputs, contrary to the claim. -/
theorem c3_amended_resultcode_zero_iff_body_and_checkout
    (db : BillingDb) (payload : CallbackPayload) :
    (mpesa_callback_post db payload).2.ResultCode = 0 ↔
      (payload.body.isSome = true ∧ callback_has_checkout_id payload = true) := by
  cases hb : payload.body with
  | none =>
    simp [mpesa_callback_post, hb]
  | some b =>
    cases hc : (parse_callback payload).checkout_request_id with
    | none =>
      simp [mpesa_callback_post, callback_has_checkout_id, hb, hc]
    | some c =>
      by_cases hce : c = ""
      · subst hce
        simp [mpesa_callback_post, callback_has_checkout_id, hb, hc]
      · by_cases hm : c = db.payment.checkout_request_id
        · have hne : ¬ db.payment.checkout_request_id = "" := by
            rw [← hm]; exact hce
          by_cases hsuc : (parse_callback payload).success = true
          · simp [mpesa_callback_post, callback_has_checkout_id, hb, hc, hce, hm, hne, hsuc]
          · simp [mpesa_callback_post, callback_has_checkout_id, hb, hc, hce, hm, hne, hsuc]
        · simp [mpesa_callback_post, callback_has_checkout_id, hb, hc, hce, hm]

end Hospital

namespace Hospital

/-- C7: for a payable invoice at rest (its row is the output of a save, so a
    payable status forces a positive balance): an amount exactly equal to
    balance_due passes validation (and the view then proceeds for every
    gateway outcome), an omitted amount defaults to balance_due, and an
    amount one cent over balance_due is rejected with the ValidationError
    "Amount exceeds invoice balance" - the view returns that error before any
    payment row is created. -/
theorem c7_initiate_amount_boundary (pre inv : Invoice) (phone : String)
    (hrest : inv = pre.save)
    (hpay : validate_invoice inv = Except.ok ())
    (hph : validate_phone_number phone = Except.ok phone) :
    serializer_validate inv phone (some inv.balance_due) = Except.ok inv.balance_due ∧
    serializer_validate inv phone none = Except.ok inv.balance_due ∧
    serializer_validate inv phone (some (inv.balance_due + 1)) =
      Except.error "Amount exceeds invoice balance" ∧
    (∀ num gw, mpesa_stk_push_post inv (some (inv.balance_due + 1)) phone num gw =
      Except.error "Amount exceeds invoice balance") ∧
    (∀ num gw, exceptOk (mpesa_stk_push_post inv (some inv.balance_due) phone num gw) =
      true) := by
  have hbal : 0 < inv.balance_due := by
    subst hrest
    exact save_payable_balance_pos pre hpay
  have hb2 : ¬ inv.balance_due ≤ 0 := by omega
  have hgt : inv.balance_due + 1 > inv.balance_due := by omega
  have h1 : serializer_validate inv phone (some inv.balance_due) =
      Except.ok inv.balance_due := by
    simp [serializer_validate, hpay, hph, hb2]
  have h2 : serializer_validate inv phone none = Except.ok inv.balance_due := by
    simp [serializer_validate, hpay, hph]
  have h3 : serializer_validate inv phone (some (inv.balance_due + 1)) =
      Except.error "Amount exceeds invoice balance" := by
    simp [serializer_validate, hpay, hph, hgt]
  refine ⟨h1, h2, h3, ?_, ?_⟩
  · intro num gw
    simp [mpesa_stk_push_post, h3]
  · intro num gw
    cases gw with
    | ok r =>
      cases hs : r.success with
      | true => simp [mpesa_stk_push_post, h1, hs, exceptOk]
      | false => simp [mpesa_stk_push_post, h1, hs, exceptOk]
    | mpesaError e => simp [mpesa_stk_push_post, h1, exceptOk]

theorem c7_initiate_amount_boundary_witness :
    serializer_validate invA "254712345678" (some invA.balance_due) =
      Except.ok invA.balance_due ∧
    serializer_validate invA "254712345678" (some (invA.balance_due + 1)) =
      Except.error "Amount exceeds invoice balance" :=
  ⟨(c7_initiate_amount_boundary invA invA "254712345678" (by decide) rfl rfl).1,
   (c7_initiate_amount_boundary invA invA "254712345678" (by decide) rfl rfl).2.2.1⟩

/-- C8: when the gateway client raises during initiation, the STK-push view
    returns a normal (HTTP 500) response rather than propagating the
    exception, and the created payment row ends FAILED with str(e) - a
    non-empty result description - never as a dangling PENDING record. -/
theorem c8_gateway_error_yields_failed_payment (inv : Invoice)
    (amount_in : Option Int) (phone num : String) (a : Int) (e : MpesaError)
    (hval : serializer_validate inv phone amount_in = Except.ok a) :
    exceptOk (mpesa_stk_push_post inv amount_in phone num
      (GatewayCall.mpesaError e.message)) = true ∧
    ∀ out, mpesa_stk_push_post inv amount_in phone num
        (GatewayCall.mpesaError e.message) = Except.ok out →
      out.payment.status = PaymentStatus.FAILED ∧
      out.payment.result_description = e.message ∧
      ¬ out.payment.result_description = "" ∧
      out.http_status = 500 := by
  constructor
  · simp [mpesa_stk_push_post, hval, exceptOk]
  · intro out hout
    simp only [mpesa_stk_push_post, hval] at hout
    injection hout with h
    subst h
    exact ⟨rfl, rfl, mpesa_error_message_ne_empty e, rfl⟩

theorem c8_gateway_error_yields_failed_payment_witness :
    exceptOk (mpesa_stk_push_post invA none "254712345678" "INV2024100001"
      (GatewayCall.mpesaError (MpesaError.auth_failed "connection refused").message)) =
      true :=
  (c8_gateway_error_yields_failed_payment invA none "254712345678" "INV2024100001"
    100000 (MpesaError.auth_failed "connection refused") rfl).1

/-- C10: the validated amount is truncated toward zero to a whole number of
    currency units by int(): the payment row records the truncated amount and
    the outbound request's Amount field carries the same whole number, so
    with a nonzero fractional part the recorded amount is strictly below both
    the validated amount and the invoice balance. -/
theorem c10_amount_truncation (inv : Invoice) (amount_in : Option Int)
    (phone num : String) (a : Int) (gw : GatewayCall StkPushResult)
    (hval : serializer_validate inv phone amount_in = Except.ok a)
    (hpos : 0 < a) (hfrac : a % 100 ≠ 0) :
    exceptOk (mpesa_stk_push_post inv amount_in phone num gw) = true ∧
    ∀ out, mpesa_stk_push_post inv amount_in phone num gw = Except.ok out →
      out.payment.amount = a.tdiv 100 * 100 ∧
      out.request.Amount = a.tdiv 100 ∧
      out.payment.amount < a ∧
      out.payment.amount < inv.balance_due := by
  have hle : a ≤ inv.balance_due := serializer_validate_le inv phone amount_in a hval
  have htd : a.tdiv 100 = a / 100 := Int.tdiv_eq_ediv (le_of_lt hpos) (by norm_num)
  have hlt : a.tdiv 100 * 100 < a := by
    rw [htd]
    omega
  have hltb : a.tdiv 100 * 100 < inv.balance_due := lt_of_lt_of_le hlt hle
  cases gw with
  | ok r =>
    cases hs : r.success with
    | true =>
      constructor
      · simp [mpesa_stk_push_post, hval, hs, exceptOk]
      · intro out hout
        simp only [mpesa_stk_push_post, hval, hs] at hout
        injection hout with h
        subst h
        exact ⟨rfl, rfl, hlt, hltb⟩
    | false =>
      constructor
      · simp [mpesa_stk_push_post, hval, hs, exceptOk]
      · intro out hout
        simp only [mpesa_stk_push_post, hval, hs] at hout
        injection hout with h
        subst h
        exact ⟨rfl, rfl, hlt, hltb⟩
  | mpesaError e =>
    constructor
    · simp [mpesa_stk_push_post, hval, exceptOk]
    · intro out hout
      simp only [mpesa_stk_push_post, hval] at hout
      injection hout with h
      subst h
      exact ⟨rfl, rfl, hlt, hltb⟩

theorem c10_amount_truncation_witness :
    exceptOk (mpesa_stk_push_post invFrac none "254712345678" "INV2024100002"
      gwAccept) = true :=
  (c10_amount_truncation invFrac none "254712345678" "INV2024100002" 100050
    gwAccept rfl (by decide) (by decide)).1

end Hospital
